import Mathlib

/-
Shallow embedding of src/client/configuration.py (the pyre-check client
configuration resolver).  Python strings are Lean `String`, Python lists are
Lean `List`, attributes that may be Python `None` are `Option`.  Python
truthiness on the attribute types that occur here is modelled explicitly:
a string is truthy iff nonempty, a list iff nonempty, an int iff nonzero,
`None` is falsy.  Filesystem and environment probes (`os.getenv`,
`os.path.isdir`, `os.listdir`, `shutil.which`, and the helpers imported from
the client package: `find_typeshed`, `number_of_workers`) are inputs of the
embedded functions.  Exceptions are modelled with `Except`.
-/

/-- Python truthiness of an optional string attribute: `None` and the empty
string are falsy, every other string is truthy. -/
def truthyOpt : Option String → Bool
  | none => false
  | some s => s ≠ ""

/-- Python truthiness of the optional integer `number_of_workers` attribute:
`None` and `0` are falsy. -/
def truthyWorkers : Option Int → Bool
  | none => false
  | some w => w ≠ 0

/-- Fuel-driven core of `strReplace`.  At each position, if the pattern is a
prefix of the remaining input, emit the replacement and skip the pattern,
otherwise keep one character; this is Python `str.replace`, which rewrites
every non-overlapping occurrence left to right.  The fuel is only a
termination device; `strReplace` passes the input length, which is enough
fuel whenever the pattern is nonempty (the only use here is pattern `%V`). -/
def replaceLoop (pat rep : List Char) : Nat → List Char → List Char
  | 0, s => s
  | _ + 1, [] => []
  | fuel + 1, c :: cs =>
    if pat.isPrefixOf (c :: cs) then
      rep ++ replaceLoop pat rep fuel ((c :: cs).drop pat.length)
    else
      c :: replaceLoop pat rep fuel cs

/-- Python `s.replace(pat, rep)` for a nonempty pattern. -/
def strReplace (s pat rep : String) : String :=
  String.mk (replaceLoop pat.data rep.data s.data.length s.data)

/-- POSIX `os.path.join` as used in `Configuration.validate`
(`os.path.join(self._typeshed, "stdlib/")`). -/
def osPathJoin (a b : String) : String :=
  if b.data.head? = some '/' then b
  else if a = "" then b
  else if a.data.getLast? = some '/' then a ++ b
  else a ++ "/" ++ b

/-- The exceptions raised by code in `configuration.py`:
`InvalidConfiguration`, `EnvironmentException` (the wrapped user-facing
error re-raised by `validate` and the error raised by `_read` on malformed
JSON), and `pythonRuntimeError` for built-in exceptions no handler catches
(`TypeError` from comparing `None < 1`, `OSError` from `os.listdir`,
`IndexError` from indexing an empty directory name). -/
inductive PyreError
  | invalidConfiguration (msg : String)
  | environmentException (msg : String)
  | pythonRuntimeError (name : String)
deriving DecidableEq, Repr

/-- Decidable equality on `Except`, for evaluating embedded operations on
concrete inputs. -/
instance {ε α : Type} [DecidableEq ε] [DecidableEq α] :
    DecidableEq (Except ε α) := fun a b =>
  match a, b with
  | .ok x, .ok y =>
    if h : x = y then .isTrue (by rw [h]) else .isFalse (by simp [h])
  | .error x, .error y =>
    if h : x = y then .isTrue (by rw [h]) else .isFalse (by simp [h])
  | .ok _, .error _ => .isFalse (by simp)
  | .error _, .ok _ => .isFalse (by simp)

/-- A parsed JSON configuration file, restricted to the recognized top-level
keys at their expected types.  `none` models an absent key.  `disabled`
keeps its JSON boolean value but only key presence is ever consulted by
`_read`.  `workers` holds the value after Python `int()` coercion. -/
structure ConfigFile where
  source_directories : Option (List String) := none
  link_trees : Option (List String) := none
  targets : Option (List String) := none
  disabled : Option Bool := none
  logger : Option String := none
  autogenerated : Option (List String) := none
  workers : Option Int := none
  binary : Option String := none
  search_path : Option (List String) := none
  version : Option String := none
  typeshed : Option String := none
deriving DecidableEq, Repr

/-- Outcome of opening and parsing one candidate configuration file.
`ioError` is any `OSError` other than file-not-found raised by `open`
(for example `PermissionError`); note that in Python 3 `IOError` is an
alias of `OSError`, so the `except IOError` clause in
`Configuration._read` catches both `notFound` and `ioError`.
`malformed` is content that raises `json.JSONDecodeError`. -/
inductive FileOutcome
  | notFound
  | ioError
  | malformed
  | content (c : ConfigFile)
deriving DecidableEq, Repr

/-- The attributes of a `Configuration` object, named as in the source
(leading underscore for the private attributes). -/
structure Configuration where
  source_directories : List String
  targets : List String
  logger : Option String
  autogenerated : List String
  number_of_workers : Option Int
  _version_hash : Option String
  _binary : Option String
  _typeshed : Option String
  _search_directories : List String
  _disabled : Bool
deriving DecidableEq, Repr

/-- `Configuration.disabled`: returns the `_disabled` flag. -/
def Configuration.disabled (self : Configuration) : Bool :=
  self._disabled

/-- `Configuration.get_version_hash`: returns `_version_hash` unchecked. -/
def Configuration.get_version_hash (self : Configuration) : Option String :=
  self._version_hash

/-- `Configuration.get_binary`: raises `InvalidConfiguration` when
`_binary` is falsy, otherwise returns it.  (The `lru_cache` decorator only
memoizes the returned value; it does not change which value is computed on
first call, which is what is modelled here.) -/
def Configuration.get_binary (self : Configuration) : Except PyreError String :=
  if truthyOpt self._binary then .ok (self._binary.getD "")
  else .error (.invalidConfiguration "Configuration was not validated")

/-- `Configuration.get_search_path`: raises `InvalidConfiguration` when
`_typeshed` is falsy; otherwise returns the accumulated search directories,
appending the typeshed path unless it is already present by value. -/
def Configuration.get_search_path (self : Configuration) :
    Except PyreError (List String) :=
  if truthyOpt self._typeshed then
    let t := self._typeshed.getD ""
    if t ∈ self._search_directories then .ok self._search_directories
    else .ok (self._search_directories ++ [t])
  else .error (.invalidConfiguration "Configuration was not validated")

/-- The body of the `with`-block of `Configuration._read`: merge one
successfully parsed file into the current state.  Each field is adopted
only when the current value is Python-falsy (for `source_directories` the
`link_trees` alias is tried when the primary key left it empty);
`search_path` extends the accumulated list unconditionally; `_disabled`
becomes true whenever the `disabled` key is present, its value ignored;
`workers` is coerced with `int(configuration.get("workers", 0))`. -/
def Configuration.mergeFile (self : Configuration) (c : ConfigFile) :
    Configuration :=
  let source_directories :=
    if self.source_directories = [] then c.source_directories.getD []
    else self.source_directories
  let source_directories :=
    if source_directories = [] then c.link_trees.getD []
    else source_directories
  let targets := if self.targets = [] then c.targets.getD [] else self.targets
  let _disabled := self._disabled || c.disabled.isSome
  let logger := if truthyOpt self.logger then self.logger else c.logger
  let autogenerated :=
    if self.autogenerated = [] then c.autogenerated.getD []
    else self.autogenerated
  let number_of_workers :=
    if truthyWorkers self.number_of_workers then self.number_of_workers
    else some (c.workers.getD 0)
  let _binary := if truthyOpt self._binary then self._binary else c.binary
  let _search_directories := self._search_directories ++ c.search_path.getD []
  let _version_hash :=
    if truthyOpt self._version_hash then self._version_hash else c.version
  let _typeshed :=
    if truthyOpt self._typeshed then self._typeshed else c.typeshed
  { source_directories := source_directories,
    targets := targets,
    logger := logger,
    autogenerated := autogenerated,
    number_of_workers := number_of_workers,
    _version_hash := _version_hash,
    _binary := _binary,
    _typeshed := _typeshed,
    _search_directories := _search_directories,
    _disabled := _disabled }

/-- `Configuration._read` on one candidate file.  `except IOError` catches
both a missing file and every other `OSError` (Python 3 aliases `IOError`
to `OSError`), leaving the state unchanged; `json.JSONDecodeError` is
re-raised as an `EnvironmentException`. -/
def Configuration.read (self : Configuration) (f : FileOutcome) :
    Except PyreError Configuration :=
  match f with
  | .notFound => .ok self
  | .ioError => .ok self
  | .malformed => .error (.environmentException "Configuration file is invalid")
  | .content c => .ok (self.mergeFile c)

/-- The sequence of `_read` calls issued by `__init__`, in priority order
(local override, then the local file, then the global file); an exception
aborts the remaining reads. -/
def Configuration.readAll (self : Configuration) :
    List FileOutcome → Except PyreError Configuration
  | [] => .ok self
  | f :: fs =>
    match self.read f with
    | .ok st => st.readAll fs
    | .error e => .error e

/-- `Configuration._resolve_versioned_paths`: when the version hash (as
returned by `get_version_hash`) and the binary path are both truthy,
replace every `%V` in the binary path with the hash; likewise for the
typeshed path. -/
def Configuration.resolve_versioned_paths (self : Configuration) :
    Configuration :=
  let version_hash := self.get_version_hash
  let _binary :=
    if truthyOpt version_hash && truthyOpt self._binary then
      some (strReplace (self._binary.getD "") "%V" (version_hash.getD ""))
    else self._binary
  let _typeshed :=
    if truthyOpt version_hash && truthyOpt self._typeshed then
      some (strReplace (self._typeshed.getD "") "%V" (version_hash.getD ""))
    else self._typeshed
  { self with _binary := _binary, _typeshed := _typeshed }

/-- The process environment and system probes consulted by `__init__` and
`_apply_defaults`: the `PYTHONPATH`, `PYRE_BINARY` and `PYRE_VERSION_HASH`
variables, `os.path.isdir`, `shutil.which(BINARY_NAME)`,
`number_of_workers()` and `find_typeshed()`. -/
structure Env where
  pythonpath : Option String := none
  pyre_binary : Option String := none
  pyre_version_hash : Option String := none
  isdir : String → Bool := fun _ => false
  which_binary : Option String := none
  default_workers : Int := 1
  found_typeshed : Option String := none

/-- The state `Configuration.__init__` builds before its `_read` calls:
empty fields, the opt-in `PYTHONPATH` import keeping only entries that are
directories, the explicit `search_path` argument appended after it, and
the explicit `typeshed` argument when truthy. -/
def initConfiguration (search_path : Option (List String))
    (typeshed : Option String) (preserve_pythonpath : Bool) (env : Env) :
    Configuration :=
  let pythonpathDirs :=
    if preserve_pythonpath && truthyOpt env.pythonpath then
      ((env.pythonpath.getD "").splitOn ":").filter env.isdir
    else []
  let dirs :=
    match search_path with
    | some sp => if sp = [] then pythonpathDirs else pythonpathDirs ++ sp
    | none => pythonpathDirs
  { source_directories := [],
    targets := [],
    logger := none,
    autogenerated := [],
    number_of_workers := none,
    _version_hash := none,
    _binary := none,
    _typeshed := if truthyOpt typeshed then typeshed else none,
    _search_directories := dirs,
    _disabled := false }

/-- `Configuration._apply_defaults`: default source directory `"."`; the
`PYRE_BINARY` override clobbers any binary, then a PATH lookup fills a
still-unset binary; the `PYRE_VERSION_HASH` override clobbers any version
hash; CPU-based worker default; typeshed auto-discovery. -/
def Configuration.apply_defaults (self : Configuration) (env : Env) :
    Configuration :=
  let source_directories :=
    if self.source_directories = [] then self.source_directories ++ ["."]
    else self.source_directories
  let _binary :=
    if truthyOpt env.pyre_binary then env.pyre_binary else self._binary
  let _binary := if truthyOpt _binary then _binary else env.which_binary
  let _version_hash :=
    if truthyOpt env.pyre_version_hash then env.pyre_version_hash
    else self._version_hash
  let number_of_workers :=
    if truthyWorkers self.number_of_workers then self.number_of_workers
    else some env.default_workers
  let _typeshed :=
    if truthyOpt self._typeshed then self._typeshed else env.found_typeshed
  { self with
    source_directories := source_directories,
    _binary := _binary,
    _version_hash := _version_hash,
    number_of_workers := number_of_workers,
    _typeshed := _typeshed }

/-- `Configuration.__init__`: the initial state, the `_read` sequence in
priority order, then `_resolve_versioned_paths`, then `_apply_defaults`.
Note the order: placeholder substitution runs before the environment
overrides of `_apply_defaults`. -/
def mkConfiguration (search_path : Option (List String))
    (typeshed : Option String) (preserve_pythonpath : Bool)
    (files : List FileOutcome) (env : Env) :
    Except PyreError Configuration :=
  match (initConfiguration search_path typeshed preserve_pythonpath env).readAll files with
  | .ok st => .ok ((st.resolve_versioned_paths).apply_defaults env)
  | .error e => .error e

/-- The filesystem probes consulted by `Configuration.validate`.
`listdir p = none` models `os.listdir p` raising `OSError`. -/
structure ValidateEnv where
  path_exists : String → Bool
  listdir : String → Option (List String)
  isdir : String → Bool

/-- The `except InvalidConfiguration` clause of `validate`: re-raise as
`EnvironmentException` with the wrapping message. -/
def wrapError (msg : String) : PyreError :=
  .environmentException ("Invalid configuration: " ++ msg ++ ".")

/-- The typeshed version-directory loop of `validate`: the first entry that
is the empty string makes the `[0]` index raise `IndexError`; the first
entry not starting with a digit raises `InvalidConfiguration`, wrapped. -/
def checkVersionDirs : List String → Except PyreError Unit
  | [] => .ok ()
  | d :: ds =>
    if d = "" then .error (.pythonRuntimeError "IndexError")
    else if (d.get 0).isDigit then checkVersionDirs ds
    else .error (wrapError "`typeshed` location must contain a stdlib directory which only contains subdirectories starting with a version number.")

/-- The search-path loop of `validate`: the first entry that is not a
directory raises `InvalidConfiguration`, wrapped. -/
def checkSearchPaths (isdir : String → Bool) :
    List String → Except PyreError Unit
  | [] => .ok ()
  | p :: ps =>
    if isdir p then checkSearchPaths isdir ps
    else .error (wrapError ("`" ++ p ++ "` is not a valid directory"))

/-- `Configuration.validate`.  In this typed embedding the
`is_list_of_strings` checks hold by construction, so they are omitted.
The function returns the state after `validate`'s in-place reassignment of
`_typeshed` (the redirect to the `stdlib` child when the typeshed listing
contains one), or the raised error. -/
def Configuration.validate (self : Configuration) (env : ValidateEnv) :
    Except PyreError Configuration :=
  if !truthyOpt self._binary then
    .error (wrapError "`binary` location must be defined")
  else if !env.path_exists (self._binary.getD "") then
    .error (wrapError ("Binary at `" ++ self._binary.getD "" ++ "` does not exist"))
  else
    match self.number_of_workers with
    | none => .error (.pythonRuntimeError "TypeError")
    | some w =>
      if w < 1 then
        .error (wrapError "Number of workers must be greater than 0")
      else if !truthyOpt self._typeshed then
        .error (wrapError "`typeshed` location must be defined")
      else
        let t0 := self._typeshed.getD ""
        match env.listdir t0 with
        | none => .error (.pythonRuntimeError "OSError")
        | some subdirs =>
          let t1 := if "stdlib" ∈ subdirs then osPathJoin t0 "stdlib/" else t0
          let self1 := { self with _typeshed := some t1 }
          match env.listdir t1 with
          | none => .error (.pythonRuntimeError "OSError")
          | some versionDirs =>
            match checkVersionDirs versionDirs with
            | .error e => .error e
            | .ok _ =>
              match self1.get_search_path with
              | .error e => .error e
              | .ok paths =>
                match checkSearchPaths env.isdir paths with
                | .error e => .error e
                | .ok _ => .ok self1

/-! ### Concrete instances used by the claim theorems and witnesses -/

/-- A state in which every mergeable field is already set. -/
def w1st : Configuration :=
  { source_directories := ["/src"],
    targets := ["//target:a"],
    logger := some "/usr/bin/logger",
    autogenerated := ["/gen"],
    number_of_workers := some 8,
    _version_hash := some "v1",
    _binary := some "/bin/pyre",
    _typeshed := some "/ts",
    _search_directories := ["/sp"],
    _disabled := false }

/-- A lower-priority file that tries to override every field. -/
def w1file : ConfigFile :=
  { source_directories := some ["/other"],
    link_trees := some ["/lt"],
    targets := some ["//target:b"],
    disabled := some false,
    logger := some "/usr/bin/other",
    autogenerated := some ["/gen2"],
    workers := some 3,
    binary := some "/bin/other",
    search_path := some ["/sp2"],
    version := some "v2",
    typeshed := some "/ts2" }

/-- The state after merging `w1file` into `w1st`: only the cumulative
search path and the sticky disabled flag change. -/
def w1result : Configuration :=
  { w1st with
    _search_directories := ["/sp", "/sp2"],
    _disabled := true }

def w2st : Configuration :=
  { source_directories := [],
    targets := [],
    logger := none,
    autogenerated := [],
    number_of_workers := none,
    _version_hash := none,
    _binary := none,
    _typeshed := none,
    _search_directories := ["/a"],
    _disabled := false }

def w2f1 : ConfigFile := { search_path := some ["/b"] }

def w2f2 : ConfigFile := { search_path := some ["/c"] }

def w2result : Configuration :=
  { w2st with
    number_of_workers := some 0,
    _search_directories := ["/a", "/b", "/c"] }

def w3st : Configuration :=
  { source_directories := [],
    targets := [],
    logger := none,
    autogenerated := [],
    number_of_workers := none,
    _version_hash := none,
    _binary := none,
    _typeshed := none,
    _search_directories := [],
    _disabled := true }

/-- A file whose `disabled` key is present with value `false`. -/
def w3file : ConfigFile := { disabled := some false }

def w3result : Configuration :=
  { w3st with number_of_workers := some 0 }

def w4st : Configuration :=
  { source_directories := [],
    targets := [],
    logger := none,
    autogenerated := [],
    number_of_workers := some 4,
    _version_hash := some "abc123",
    _binary := some "/opt/bin-%V",
    _typeshed := some "/ts-%V/x%V",
    _search_directories := [],
    _disabled := false }

def c5env : Env :=
  { pyre_version_hash := some "abc123", default_workers := 4 }

def c5files : List FileOutcome :=
  [FileOutcome.content { binary := some "/opt/bin-%V" }]

/-- The configuration the constructor produces for `c5files` under
`c5env`: the version hash comes from the environment, but the binary path
keeps the literal `%V`. -/
def c5result : Configuration :=
  { source_directories := ["."],
    targets := [],
    logger := none,
    autogenerated := [],
    number_of_workers := some 4,
    _version_hash := some "abc123",
    _binary := some "/opt/bin-%V",
    _typeshed := none,
    _search_directories := [],
    _disabled := false }

/-- The merged state for the C5 witness run. -/
def c5merged : Configuration :=
  { source_directories := [],
    targets := [],
    logger := none,
    autogenerated := [],
    number_of_workers := some 0,
    _version_hash := none,
    _binary := some "/opt/bin-%V",
    _typeshed := none,
    _search_directories := [],
    _disabled := false }

/-- A validated-shape configuration whose typeshed directory has a
`stdlib` child. -/
def c6cfg : Configuration :=
  { source_directories := ["."],
    targets := [],
    logger := none,
    autogenerated := [],
    number_of_workers := some 4,
    _version_hash := none,
    _binary := some "/bin/pyre",
    _typeshed := some "/ts",
    _search_directories := [],
    _disabled := false }

/-- A filesystem where `/ts` lists a `stdlib` child with version-numbered
subdirectories. -/
def c6env : ValidateEnv :=
  { path_exists := fun p => p = "/bin/pyre",
    listdir := fun p =>
      if p = "/ts" then some ["stdlib"]
      else if p = "/ts/stdlib/" then some ["2.7", "3.6"] else none,
    isdir := fun p => p = "/ts/stdlib/" }

def c6after : Configuration := { c6cfg with _typeshed := some "/ts/stdlib/" }

/-- A freshly merged configuration with neither binary nor typeshed. -/
def w8st : Configuration :=
  { source_directories := [],
    targets := [],
    logger := none,
    autogenerated := [],
    number_of_workers := none,
    _version_hash := none,
    _binary := none,
    _typeshed := none,
    _search_directories := [],
    _disabled := false }

def c9init : Configuration :=
  { source_directories := [],
    targets := [],
    logger := none,
    autogenerated := [],
    number_of_workers := none,
    _version_hash := none,
    _binary := none,
    _typeshed := none,
    _search_directories := [],
    _disabled := false }

/-- First file: a search-path entry equal to the typeshed path. -/
def c9f1 : ConfigFile :=
  { search_path := some ["/dup"], typeshed := some "/dup" }

/-- Second file: the same search-path entry again. -/
def c9f2 : ConfigFile := { search_path := some ["/dup"] }

def c9state : Configuration :=
  { c9init with
    number_of_workers := some 0,
    _typeshed := some "/dup",
    _search_directories := ["/dup", "/dup"] }

def w9st : Configuration :=
  { c9init with
    _typeshed := some "/ts",
    _search_directories := ["/a"] }

def c10cfg : Configuration :=
  { source_directories := [],
    targets := [],
    logger := none,
    autogenerated := [],
    number_of_workers := none,
    _version_hash := none,
    _binary := none,
    _typeshed := none,
    _search_directories := [],
    _disabled := false }

/-! ### Helper lemmas -/

/-- Characterization of string-option truthiness. -/
theorem truthyOpt_iff (o : Option String) :
    truthyOpt o = true ↔ ∃ s, o = some s ∧ s ≠ "" := by
  cases o with
  | none => simp [truthyOpt]
  | some s => simp [truthyOpt]

theorem truthyOpt_some {s : String} (h : s ≠ "") : truthyOpt (some s) = true := by
  simp [truthyOpt, h]

theorem truthyOpt_none : truthyOpt none = false := rfl

/-- A truthy field is left unchanged by merging one more file. -/
theorem mergeFile_keeps (st : Configuration) (c : ConfigFile) :
    (st.source_directories ≠ [] →
      (st.mergeFile c).source_directories = st.source_directories) ∧
    (st.targets ≠ [] → (st.mergeFile c).targets = st.targets) ∧
    (truthyOpt st.logger = true → (st.mergeFile c).logger = st.logger) ∧
    (st.autogenerated ≠ [] →
      (st.mergeFile c).autogenerated = st.autogenerated) ∧
    (truthyWorkers st.number_of_workers = true →
      (st.mergeFile c).number_of_workers = st.number_of_workers) ∧
    (truthyOpt st._binary = true → (st.mergeFile c)._binary = st._binary) ∧
    (truthyOpt st._version_hash = true →
      (st.mergeFile c)._version_hash = st._version_hash) ∧
    (truthyOpt st._typeshed = true →
      (st.mergeFile c)._typeshed = st._typeshed) := by
  refine ⟨?_, ?_, ?_, ?_, ?_, ?_, ?_, ?_⟩ <;> intro h <;>
    simp [Configuration.mergeFile, h]

/-- Generic invariant-preservation along the `_read` sequence: a projection
that every single merge leaves unchanged under an invariant it preserves is
unchanged by the whole successful sequence. -/
theorem readAll_invariant {α : Type} (f : Configuration → α)
    (P : Configuration → Prop)
    (hstep : ∀ st c, P st → f (st.mergeFile c) = f st ∧ P (st.mergeFile c)) :
    ∀ (fs : List FileOutcome) (st st' : Configuration),
      st.readAll fs = .ok st' → P st → f st' = f st ∧ P st' := by
  intro fs
  induction fs with
  | nil =>
    intro st st' h hp
    simp [Configuration.readAll] at h
    subst h
    exact ⟨rfl, hp⟩
  | cons g fs ih =>
    intro st st' h hp
    cases g with
    | notFound => exact ih st st' h hp
    | ioError => exact ih st st' h hp
    | malformed => simp [Configuration.readAll, Configuration.read] at h
    | content c =>
      obtain ⟨he, hpc⟩ := hstep st c hp
      obtain ⟨he2, hp2⟩ := ih (st.mergeFile c) st' h hpc
      exact ⟨he2.trans he, hp2⟩

theorem readAll_keeps_source_directories {fs : List FileOutcome}
    {st st' : Configuration} (h : st.readAll fs = .ok st')
    (hne : st.source_directories ≠ []) :
    st'.source_directories = st.source_directories :=
  (readAll_invariant (fun s => s.source_directories)
    (fun s => s.source_directories ≠ [])
    (fun s c hp => ⟨(mergeFile_keeps s c).1 hp,
      by simpa [(mergeFile_keeps s c).1 hp] using hp⟩) fs st st' h hne).1

theorem readAll_keeps_targets {fs : List FileOutcome}
    {st st' : Configuration} (h : st.readAll fs = .ok st')
    (hne : st.targets ≠ []) : st'.targets = st.targets :=
  (readAll_invariant (fun s => s.targets) (fun s => s.targets ≠ [])
    (fun s c hp => ⟨(mergeFile_keeps s c).2.1 hp,
      by simpa [(mergeFile_keeps s c).2.1 hp] using hp⟩) fs st st' h hne).1

theorem readAll_keeps_logger {fs : List FileOutcome}
    {st st' : Configuration} (h : st.readAll fs = .ok st')
    (hne : truthyOpt st.logger = true) : st'.logger = st.logger :=
  (readAll_invariant (fun s => s.logger) (fun s => truthyOpt s.logger = true)
    (fun s c hp => ⟨(mergeFile_keeps s c).2.2.1 hp,
      by simpa [(mergeFile_keeps s c).2.2.1 hp] using hp⟩) fs st st' h hne).1

theorem readAll_keeps_autogenerated {fs : List FileOutcome}
    {st st' : Configuration} (h : st.readAll fs = .ok st')
    (hne : st.autogenerated ≠ []) : st'.autogenerated = st.autogenerated :=
  (readAll_invariant (fun s => s.autogenerated) (fun s => s.autogenerated ≠ [])
    (fun s c hp => ⟨(mergeFile_keeps s c).2.2.2.1 hp,
      by simpa [(mergeFile_keeps s c).2.2.2.1 hp] using hp⟩) fs st st' h hne).1

theorem readAll_keeps_workers {fs : List FileOutcome}
    {st st' : Configuration} (h : st.readAll fs = .ok st')
    (hne : truthyWorkers st.number_of_workers = true) :
    st'.number_of_workers = st.number_of_workers :=
  (readAll_invariant (fun s => s.number_of_workers)
    (fun s => truthyWorkers s.number_of_workers = true)
    (fun s c hp => ⟨(mergeFile_keeps s c).2.2.2.2.1 hp,
      by simpa [(mergeFile_keeps s c).2.2.2.2.1 hp] using hp⟩) fs st st' h hne).1

theorem readAll_keeps_binary {fs : List FileOutcome}
    {st st' : Configuration} (h : st.readAll fs = .ok st')
    (hne : truthyOpt st._binary = true) : st'._binary = st._binary :=
  (readAll_invariant (fun s => s._binary) (fun s => truthyOpt s._binary = true)
    (fun s c hp => ⟨(mergeFile_keeps s c).2.2.2.2.2.1 hp,
      by simpa [(mergeFile_keeps s c).2.2.2.2.2.1 hp] using hp⟩) fs st st' h hne).1

theorem readAll_keeps_version {fs : List FileOutcome}
    {st st' : Configuration} (h : st.readAll fs = .ok st')
    (hne : truthyOpt st._version_hash = true) :
    st'._version_hash = st._version_hash :=
  (readAll_invariant (fun s => s._version_hash)
    (fun s => truthyOpt s._version_hash = true)
    (fun s c hp => ⟨(mergeFile_keeps s c).2.2.2.2.2.2.1 hp,
      by simpa [(mergeFile_keeps s c).2.2.2.2.2.2.1 hp] using hp⟩) fs st st' h hne).1

theorem readAll_keeps_typeshed {fs : List FileOutcome}
    {st st' : Configuration} (h : st.readAll fs = .ok st')
    (hne : truthyOpt st._typeshed = true) : st'._typeshed = st._typeshed :=
  (readAll_invariant (fun s => s._typeshed)
    (fun s => truthyOpt s._typeshed = true)
    (fun s c hp => ⟨(mergeFile_keeps s c).2.2.2.2.2.2.2 hp,
      by simpa [(mergeFile_keeps s c).2.2.2.2.2.2.2 hp] using hp⟩) fs st st' h hne).1

/-- One merge extends the accumulated search directories by exactly the
file's `search_path` entries, at the end. -/
theorem mergeFile_search (st : Configuration) (c : ConfigFile) :
    (st.mergeFile c)._search_directories =
      st._search_directories ++ c.search_path.getD [] := rfl

/-- Every successful `_read` sequence only appends to the accumulated
search directories. -/
theorem readAll_search_extends :
    ∀ (fs : List FileOutcome) (st st' : Configuration),
      st.readAll fs = .ok st' →
      ∃ tail, st'._search_directories = st._search_directories ++ tail := by
  intro fs
  induction fs with
  | nil =>
    intro st st' h
    simp [Configuration.readAll] at h
    subst h
    exact ⟨[], by simp⟩
  | cons g fs ih =>
    intro st st' h
    cases g with
    | notFound => exact ih st st' h
    | ioError => exact ih st st' h
    | malformed => simp [Configuration.readAll, Configuration.read] at h
    | content c =>
      obtain ⟨tail, ht⟩ := ih (st.mergeFile c) st' h
      exact ⟨c.search_path.getD [] ++ tail,
        by rw [ht, mergeFile_search, List.append_assoc]⟩

/-- For a sequence of successfully parsed files, the accumulated search
directories are exactly the initial ones followed by each file's
`search_path` entries in read order. -/
theorem readAll_content_search :
    ∀ (cs : List ConfigFile) (st st' : Configuration),
      st.readAll (cs.map FileOutcome.content) = .ok st' →
      st'._search_directories = st._search_directories ++
        (cs.map (fun c => c.search_path.getD [])).flatten := by
  intro cs
  induction cs with
  | nil =>
    intro st st' h
    simp [Configuration.readAll] at h
    subst h
    simp
  | cons c cs ih =>
    intro st st' h
    have h' : (st.mergeFile c).readAll (cs.map FileOutcome.content) = .ok st' := h
    rw [ih (st.mergeFile c) st' h', mergeFile_search]
    simp [List.append_assoc]

/-- The `_disabled` flag after one merge. -/
theorem mergeFile_disabled (st : Configuration) (c : ConfigFile) :
    (st.mergeFile c)._disabled = (st._disabled || c.disabled.isSome) := rfl

/-- `_disabled` stays true across every successful `_read` sequence. -/
theorem readAll_disabled_mono {fs : List FileOutcome}
    {st st' : Configuration} (h : st.readAll fs = .ok st')
    (hd : st._disabled = true) : st'._disabled = true :=
  let r := readAll_invariant (fun s => s._disabled) (fun s => s._disabled = true)
    (fun s c hp => ⟨by show (s.mergeFile c)._disabled = s._disabled; rw [mergeFile_disabled, hp]; simp,
      by show (s.mergeFile c)._disabled = true; rw [mergeFile_disabled, hp]; simp⟩) fs st st' h hd
  r.2

/-! ### Claim C1 -/

/-- C1: over any successful sequence of up to three configuration-file
reads, each scalar/list field (source_directories, targets, logger,
autogenerated, workers, binary, version, typeshed) that is already
non-empty/truthy is never overwritten by any later file: first non-empty
value wins. -/
theorem c1_first_nonempty_wins (st st' : Configuration)
    (fs : List FileOutcome) (_hlen : fs.length ≤ 3)
    (h : st.readAll fs = .ok st') :
    (st.source_directories ≠ [] →
      st'.source_directories = st.source_directories) ∧
    (st.targets ≠ [] → st'.targets = st.targets) ∧
    (truthyOpt st.logger = true → st'.logger = st.logger) ∧
    (st.autogenerated ≠ [] → st'.autogenerated = st.autogenerated) ∧
    (truthyWorkers st.number_of_workers = true →
      st'.number_of_workers = st.number_of_workers) ∧
    (truthyOpt st._binary = true → st'._binary = st._binary) ∧
    (truthyOpt st._version_hash = true →
      st'._version_hash = st._version_hash) ∧
    (truthyOpt st._typeshed = true → st'._typeshed = st._typeshed) :=
  ⟨fun hh => readAll_keeps_source_directories h hh,
   fun hh => readAll_keeps_targets h hh,
   fun hh => readAll_keeps_logger h hh,
   fun hh => readAll_keeps_autogenerated h hh,
   fun hh => readAll_keeps_workers h hh,
   fun hh => readAll_keeps_binary h hh,
   fun hh => readAll_keeps_version h hh,
   fun hh => readAll_keeps_typeshed h hh⟩

/-- Concrete instance of C1: a file full of values overrides nothing that
was already set. -/
theorem c1_witness :
    ([FileOutcome.content w1file].length ≤ 3) ∧
    w1st.readAll [FileOutcome.content w1file] = .ok w1result ∧
    w1result.source_directories = w1st.source_directories ∧
    w1result.targets = w1st.targets ∧
    w1result.logger = w1st.logger ∧
    w1result.autogenerated = w1st.autogenerated ∧
    w1result.number_of_workers = w1st.number_of_workers ∧
    w1result._binary = w1st._binary ∧
    w1result._version_hash = w1st._version_hash ∧
    w1result._typeshed = w1st._typeshed := by
  have hlen : ([FileOutcome.content w1file] : List FileOutcome).length ≤ 3 := by
    decide
  have h : w1st.readAll [FileOutcome.content w1file] = .ok w1result := by decide
  obtain ⟨a1, a2, a3, a4, a5, a6, a7, a8⟩ :=
    c1_first_nonempty_wins w1st w1result [FileOutcome.content w1file] hlen h
  exact ⟨hlen, h, a1 (by decide), a2 (by decide), a3 (by decide),
    a4 (by decide), a5 (by decide), a6 (by decide), a7 (by decide),
    a8 (by decide)⟩

/-! ### Claim C2 -/

/-- C2: `search_path` entries are appended cumulatively in read order and
never removed or replaced: one parsed file extends the accumulated list at
its end by exactly the file's entries, any successful read sequence only
appends, and a sequence of parsed files yields the initial entries followed
by each file's entries in read order. -/
theorem c2_search_path_accumulates (st st' : Configuration)
    (fs : List FileOutcome) (h : st.readAll fs = .ok st') :
    (∀ c : ConfigFile, (st.mergeFile c)._search_directories =
      st._search_directories ++ c.search_path.getD []) ∧
    (∃ tail, st'._search_directories = st._search_directories ++ tail) ∧
    (∀ (cs : List ConfigFile) (st2 : Configuration),
      st.readAll (cs.map FileOutcome.content) = .ok st2 →
      st2._search_directories = st._search_directories ++
        (cs.map (fun c => c.search_path.getD [])).flatten) :=
  ⟨fun c => mergeFile_search st c,
   readAll_search_extends fs st st' h,
   fun cs st2 h2 => readAll_content_search cs st st2 h2⟩

/-- Concrete instance of C2: two files' search paths accumulate in read
order after the initial entry. -/
theorem c2_witness :
    w2st.readAll ([w2f1, w2f2].map FileOutcome.content) = .ok w2result ∧
    (w2st.mergeFile w2f1)._search_directories =
      w2st._search_directories ++ w2f1.search_path.getD [] ∧
    (∃ tail, w2result._search_directories =
      w2st._search_directories ++ tail) ∧
    w2result._search_directories = w2st._search_directories ++
      ([w2f1, w2f2].map (fun c => c.search_path.getD [])).flatten := by
  have h : w2st.readAll ([w2f1, w2f2].map FileOutcome.content) =
      .ok w2result := by decide
  obtain ⟨a1, a2, a3⟩ := c2_search_path_accumulates w2st w2result
    ([w2f1, w2f2].map FileOutcome.content) h
  exact ⟨h, a1 w2f1, a2, a3 [w2f1, w2f2] w2result h⟩

/-! ### Claim C3 -/

/-- C3: the `disabled` flag is presence-only and monotonic: merging a file
sets it to the disjunction of its old value with key presence (so any file
whose JSON object contains the `disabled` key, whatever its value, turns
the flag on), a true flag stays true across every later successful read,
and the `disabled()` accessor reports the flag. -/
theorem c3_disabled_sticky (st st' : Configuration) (c : ConfigFile)
    (fs : List FileOutcome) (h : st.readAll fs = .ok st')
    (hd : st._disabled = true) :
    (st.mergeFile c)._disabled = (st._disabled || c.disabled.isSome) ∧
    (c.disabled.isSome = true → (st.mergeFile c)._disabled = true) ∧
    st'._disabled = true ∧
    st.disabled = st._disabled :=
  ⟨mergeFile_disabled st c,
   fun hc => by rw [mergeFile_disabled st c, hc]; simp,
   readAll_disabled_mono h hd,
   rfl⟩

/-- Concrete instance of C3: `disabled: false` in a file keeps the flag on,
and presence alone turns it on. -/
theorem c3_witness :
    w3st.readAll [FileOutcome.content w3file] = .ok w3result ∧
    (w3st.mergeFile w3file)._disabled =
      (w3st._disabled || w3file.disabled.isSome) ∧
    (w3st.mergeFile w3file)._disabled = true ∧
    w3result._disabled = true ∧
    w3st.disabled = w3st._disabled := by
  have h : w3st.readAll [FileOutcome.content w3file] = .ok w3result := by
    decide
  obtain ⟨a1, a2, a3, a4⟩ := c3_disabled_sticky w3st w3result w3file
    [FileOutcome.content w3file] h (by decide)
  exact ⟨h, a1, a2 (by decide), a3, a4⟩

/-! ### Claim C4 -/

/-- C4: after the merge, when a version hash and a binary path are both
present (truthy), `_resolve_versioned_paths` replaces every occurrence of
the literal token `%V` in the binary path with the hash — `strReplace`
rewrites all non-overlapping occurrences, as Python `str.replace` does —
and likewise for the typeshed path. -/
theorem c4_placeholder_substitution (st : Configuration) (b v : String)
    (hb : st._binary = some b) (hv : st._version_hash = some v)
    (hbne : b ≠ "") (hvne : v ≠ "") :
    (st.resolve_versioned_paths)._binary = some (strReplace b "%V" v) ∧
    (∀ t, st._typeshed = some t → t ≠ "" →
      (st.resolve_versioned_paths)._typeshed = some (strReplace t "%V" v)) := by
  constructor
  · simp [Configuration.resolve_versioned_paths,
      Configuration.get_version_hash, hb, hv, truthyOpt_some hvne,
      truthyOpt_some hbne]
  · intro t ht htne
    simp [Configuration.resolve_versioned_paths,
      Configuration.get_version_hash, hb, hv, ht, truthyOpt_some hvne,
      truthyOpt_some htne]

/-- Concrete instance of C4, including the spec's example: binary
`/opt/bin-%V` with hash `abc123` resolves to `/opt/bin-abc123`, and every
occurrence of `%V` in the typeshed path is replaced. -/
theorem c4_witness :
    w4st._binary = some "/opt/bin-%V" ∧
    w4st._version_hash = some "abc123" ∧
    ("/opt/bin-%V" : String) ≠ "" ∧
    ("abc123" : String) ≠ "" ∧
    (w4st.resolve_versioned_paths)._binary =
      some (strReplace "/opt/bin-%V" "%V" "abc123") ∧
    strReplace "/opt/bin-%V" "%V" "abc123" = "/opt/bin-abc123" ∧
    (w4st.resolve_versioned_paths)._typeshed =
      some (strReplace "/ts-%V/x%V" "%V" "abc123") ∧
    strReplace "/ts-%V/x%V" "%V" "abc123" = "/ts-abc123/xabc123" := by
  obtain ⟨a1, a2⟩ := c4_placeholder_substitution w4st "/opt/bin-%V" "abc123"
    (by decide) (by decide) (by decide) (by decide)
  exact ⟨by decide, by decide, by decide, by decide, a1, by decide,
    a2 "/ts-%V/x%V" (by decide) (by decide), by decide⟩

/-! ### Claim C5 -/

/-- Counterexample to C5: with `PYRE_VERSION_HASH=abc123` set and a file
supplying `binary = "/opt/bin-%V"` but no `version`, the fully constructed
configuration resolves the version hash to `abc123` yet leaves `%V` in the
binary path unsubstituted, because `_resolve_versioned_paths` runs before
`_apply_defaults` applies the environment override. -/
theorem c5_counterexample :
    mkConfiguration none none false c5files c5env = .ok c5result ∧
    c5result._version_hash = some "abc123" ∧
    c5result._binary = some "/opt/bin-%V" ∧
    some "/opt/bin-%V" ≠ some (strReplace "/opt/bin-%V" "%V" "abc123") :=
  ⟨by decide, by decide, by decide, by decide⟩

/-- C5 amended: the `%V` substitution uses only the version hash merged
from the configuration files; the `PYRE_VERSION_HASH` environment override
is applied afterwards and triggers no re-substitution.  In particular,
when the override is set, no file supplied a version, no `PYRE_BINARY`
override is set and the merged binary is truthy, the constructed
configuration reports the environment hash while keeping the binary path
verbatim, any `%V` in it included. -/
theorem c5_amended_substitution_precedes_override
    (sp : Option (List String)) (ts : Option String) (pp : Bool)
    (files : List FileOutcome) (env : Env) (st : Configuration)
    (v b : String)
    (hv : env.pyre_version_hash = some v) (hvne : v ≠ "")
    (h : (initConfiguration sp ts pp env).readAll files = .ok st)
    (hnofile : st._version_hash = none)
    (hb : st._binary = some b) (hbne : b ≠ "")
    (hnb : env.pyre_binary = none) :
    mkConfiguration sp ts pp files env =
      .ok ((st.resolve_versioned_paths).apply_defaults env) ∧
    ((st.resolve_versioned_paths).apply_defaults env)._version_hash =
      some v ∧
    ((st.resolve_versioned_paths).apply_defaults env)._binary = some b := by
  have hr1 : (st.resolve_versioned_paths)._binary = some b := by
    simp [Configuration.resolve_versioned_paths,
      Configuration.get_version_hash, hnofile, truthyOpt, hb]
  refine ⟨?_, ?_, ?_⟩
  · simp [mkConfiguration, h]
  · simp [Configuration.apply_defaults, hv, truthyOpt_some hvne]
  · simp [Configuration.apply_defaults, hnb, truthyOpt_none, hr1,
      truthyOpt_some hbne]

/-- Concrete instance of the amended C5. -/
theorem c5_amended_witness :
    c5env.pyre_version_hash = some "abc123" ∧
    ("abc123" : String) ≠ "" ∧
    (initConfiguration none none false c5env).readAll c5files =
      .ok c5merged ∧
    c5merged._version_hash = none ∧
    c5merged._binary = some "/opt/bin-%V" ∧
    ("/opt/bin-%V" : String) ≠ "" ∧
    c5env.pyre_binary = none ∧
    mkConfiguration none none false c5files c5env =
      .ok ((c5merged.resolve_versioned_paths).apply_defaults c5env) ∧
    ((c5merged.resolve_versioned_paths).apply_defaults c5env)._version_hash =
      some "abc123" ∧
    ((c5merged.resolve_versioned_paths).apply_defaults c5env)._binary =
      some "/opt/bin-%V" := by
  obtain ⟨a1, a2, a3⟩ := c5_amended_substitution_precedes_override
    none none false c5files c5env c5merged "abc123" "/opt/bin-%V"
    (by decide) (by decide) (by decide) (by decide) (by decide) (by decide)
    (by decide)
  exact ⟨by decide, by decide, by decide, by decide, by decide, by decide,
    by decide, a1, a2, a3⟩

/-! ### Claim C6 -/

/-- C6 amended: after construction the only mutating operation is
`validate`, and the only attribute it ever changes is `_typeshed`, which it
may redirect to the `stdlib` child of the typeshed directory; a successful
`validate` leaves every other attribute unchanged. -/
theorem c6_validate_only_mutates_typeshed (st st' : Configuration)
    (env : ValidateEnv) (h : st.validate env = .ok st') :
    st'.source_directories = st.source_directories ∧
    st'.targets = st.targets ∧
    st'.logger = st.logger ∧
    st'.autogenerated = st.autogenerated ∧
    st'.number_of_workers = st.number_of_workers ∧
    st'._version_hash = st._version_hash ∧
    st'._binary = st._binary ∧
    st'._search_directories = st._search_directories ∧
    st'._disabled = st._disabled ∧
    (st'._typeshed = st._typeshed ∨
      ∃ t, st._typeshed = some t ∧
        st'._typeshed = some (osPathJoin t "stdlib/")) := by
  cases hts0 : st._typeshed with
  | none =>
    simp only [Configuration.validate, hts0] at h
    repeat' split at h
    all_goals simp_all [truthyOpt]
  | some t =>
    by_cases htne : t = ""
    · subst htne
      simp only [Configuration.validate, hts0] at h
      repeat' split at h
      all_goals simp_all [truthyOpt]
    · simp only [Configuration.validate, hts0] at h
      repeat' split at h
      all_goals try (exact Except.noConfusion h)
      all_goals rw [Except.ok.injEq] at h
      all_goals subst h
      all_goals refine ⟨rfl, rfl, rfl, rfl, rfl, rfl, rfl, rfl, rfl, ?_⟩
      all_goals first
        | (left; simp [hts0]; done)
        | (right; refine ⟨t, rfl, ?_⟩; simp)

/-- Counterexample to C6: `validate` is callable after the constructor
returns, succeeds here, and changes the `_typeshed` field (redirecting it
to the `stdlib` child), so the object is not read-only after
construction. -/
theorem c6_counterexample :
    c6cfg.validate c6env = .ok c6after ∧
    c6after._typeshed ≠ c6cfg._typeshed :=
  ⟨by decide, by decide⟩

/-- Concrete instance of the amended C6: the same successful `validate`
changes no attribute other than `_typeshed`. -/
theorem c6_witness :
    c6cfg.validate c6env = .ok c6after ∧
    c6after.source_directories = c6cfg.source_directories ∧
    c6after.targets = c6cfg.targets ∧
    c6after.logger = c6cfg.logger ∧
    c6after.autogenerated = c6cfg.autogenerated ∧
    c6after.number_of_workers = c6cfg.number_of_workers ∧
    c6after._version_hash = c6cfg._version_hash ∧
    c6after._binary = c6cfg._binary ∧
    c6after._search_directories = c6cfg._search_directories ∧
    c6after._disabled = c6cfg._disabled ∧
    (c6after._typeshed = c6cfg._typeshed ∨
      ∃ t, c6cfg._typeshed = some t ∧
        c6after._typeshed = some (osPathJoin t "stdlib/")) := by
  have h : c6cfg.validate c6env = .ok c6after := by decide
  obtain ⟨a1, a2, a3, a4, a5, a6, a7, a8, a9, a10⟩ :=
    c6_validate_only_mutates_typeshed c6cfg c6after c6env h
  exact ⟨h, a1, a2, a3, a4, a5, a6, a7, a8, a9, a10⟩

/-! ### Claim C7 -/

/-- C7: reading one candidate file raises exactly when its content is
malformed JSON: a missing file leaves the state unchanged and merging
continues with the next file, while malformed JSON raises the fatal
configuration error immediately, before any later file is merged. -/
theorem c7_missing_skipped_malformed_fatal (st : Configuration)
    (f : FileOutcome) (rest : List FileOutcome) :
    st.read FileOutcome.notFound = .ok st ∧
    st.readAll (FileOutcome.notFound :: rest) = st.readAll rest ∧
    (Except.isOk (st.read f) = true ↔ f ≠ FileOutcome.malformed) ∧
    st.read FileOutcome.malformed =
      .error (.environmentException "Configuration file is invalid") ∧
    st.readAll (FileOutcome.malformed :: rest) =
      .error (.environmentException "Configuration file is invalid") := by
  refine ⟨rfl, rfl, ?_, rfl, rfl⟩
  cases f <;> simp [Configuration.read, Except.isOk, Except.toBool]

/-! ### Claim C8 -/

/-- C8: called on a configuration whose binary (respectively typeshed)
field is unset/falsy, `get_binary` (respectively `get_search_path`) raises
the narrower not-yet-validated `InvalidConfiguration` error — not the
wrapped `EnvironmentException` — instead of returning a value. -/
theorem c8_accessors_raise_before_validation (st su : Configuration)
    (h1 : truthyOpt st._binary = false)
    (h2 : truthyOpt su._typeshed = false) :
    st.get_binary =
      .error (.invalidConfiguration "Configuration was not validated") ∧
    su.get_search_path =
      .error (.invalidConfiguration "Configuration was not validated") := by
  constructor
  · simp [Configuration.get_binary, h1]
  · simp [Configuration.get_search_path, h2]

/-- Concrete instance of C8. -/
theorem c8_witness :
    truthyOpt w8st._binary = false ∧
    truthyOpt w8st._typeshed = false ∧
    w8st.get_binary =
      .error (.invalidConfiguration "Configuration was not validated") ∧
    w8st.get_search_path =
      .error (.invalidConfiguration "Configuration was not validated") := by
  obtain ⟨a1, a2⟩ :=
    c8_accessors_raise_before_validation w8st w8st (by decide) (by decide)
  exact ⟨by decide, by decide, a1, a2⟩

/-! ### Claim C9 -/

/-- Counterexample to C9: a configuration reachable by merging two files
whose accumulated search directories already contain the typeshed path
twice; `get_search_path` skips the append but keeps both copies, so the
typeshed path appears twice in the result. -/
theorem c9_counterexample :
    c9init.readAll [FileOutcome.content c9f1, FileOutcome.content c9f2] =
      .ok c9state ∧
    c9state._typeshed = some "/dup" ∧
    c9state.get_search_path = .ok ["/dup", "/dup"] ∧
    List.count "/dup" ["/dup", "/dup"] = 2 :=
  ⟨by decide, by decide, by decide, by decide⟩

/-- C9 amended: with a truthy typeshed path, `get_search_path` returns the
accumulated directories unchanged when the typeshed path is already present
by value and otherwise appends it exactly once at the end; the accessor
itself never introduces a duplicate (the typeshed count of the result is
`max 1` of its count among the accumulated directories), but duplicates
already present among the accumulated directories are kept. -/
theorem c9_typeshed_appended_once (st : Configuration) (t : String)
    (ht : st._typeshed = some t) (htne : t ≠ "") :
    st.get_search_path =
      .ok (if t ∈ st._search_directories then st._search_directories
        else st._search_directories ++ [t]) ∧
    (t ∉ st._search_directories →
      st.get_search_path = .ok (st._search_directories ++ [t]) ∧
      List.count t (st._search_directories ++ [t]) =
        List.count t st._search_directories + 1) ∧
    (∃ r, st.get_search_path = .ok r ∧
      List.count t r = max 1 (List.count t st._search_directories)) := by
  have hbase : st.get_search_path =
      .ok (if t ∈ st._search_directories then st._search_directories
        else st._search_directories ++ [t]) := by
    by_cases hmem : t ∈ st._search_directories <;>
      simp [Configuration.get_search_path, ht, truthyOpt_some htne, hmem]
  refine ⟨hbase, ?_, ?_⟩
  · intro hmem
    rw [hbase, if_neg hmem]
    exact ⟨rfl, by simp⟩
  · by_cases hmem : t ∈ st._search_directories
    · refine ⟨st._search_directories, by rw [hbase, if_pos hmem], ?_⟩
      have h1 : 0 < List.count t st._search_directories :=
        List.count_pos_iff.mpr hmem
      exact (Nat.max_eq_right h1).symm
    · refine ⟨st._search_directories ++ [t],
        by rw [hbase, if_neg hmem], ?_⟩
      have h0 : List.count t st._search_directories = 0 :=
        List.count_eq_zero.mpr hmem
      simp [h0]

/-- Concrete instance of the amended C9. -/
theorem c9_witness :
    w9st._typeshed = some "/ts" ∧
    ("/ts" : String) ≠ "" ∧
    w9st.get_search_path =
      .ok (if "/ts" ∈ w9st._search_directories then w9st._search_directories
        else w9st._search_directories ++ ["/ts"]) ∧
    (∃ r, w9st.get_search_path = .ok r ∧
      List.count "/ts" r =
        max 1 (List.count "/ts" w9st._search_directories)) := by
  obtain ⟨a1, a2, a3⟩ :=
    c9_typeshed_appended_once w9st "/ts" (by decide) (by decide)
  exact ⟨by decide, by decide, a1, a3⟩

/-! ### Claim C10 -/

/-- Counterexample to C10: an IO error other than file-not-found (for
example permission-denied on an existing file) does NOT propagate: the
`except IOError` clause catches it (Python 3 aliases `IOError` to
`OSError`) and `_read` returns with the state unchanged. -/
theorem c10_counterexample :
    c10cfg.read FileOutcome.ioError = .ok c10cfg ∧
    ¬ ∃ e, c10cfg.read FileOutcome.ioError = .error e :=
  ⟨rfl, fun ⟨_, he⟩ => Except.noConfusion he⟩

/-- C10 amended: every IO error during the candidate file read — the
permission-denied case included — is caught by the same `except IOError`
handler as file-not-found and treated as "this layer supplies no
overrides": the state is unchanged and merging continues with the next
file. -/
theorem c10_amended_ioerrors_swallowed (st : Configuration)
    (rest : List FileOutcome) :
    st.read FileOutcome.ioError = .ok st ∧
    st.readAll (FileOutcome.ioError :: rest) = st.readAll rest :=
  ⟨rfl, rfl⟩
